import Mathlib

/-!
Verification of the UMarket realtime conversation synchronizer
(frontend messages page and its chat data-access layer).

The definitions below are shallow embeddings of the JavaScript source:

* `chatApi` (src/unnamed/part_004): `fetchChats`, `fetchChatMessages`,
  `sendChatMessage`, `markMessagesRead`, `fetchMessageReceipts`.
* The messages page (src/frontend/pages/dashboard/orders.js, MessagesPage
  component): `sortMessages`, the realtime subscription handler, the
  optimistic send pipeline (`handleSendMessage`), and the unread predicate
  used by `markChatAsRead` and the sidebar.

Machine conventions: ISO timestamp strings are compared in the source via
`new Date(s).getTime()`, a monotone injection into integers, so timestamps
are modelled as `Nat`.  JavaScript falsy string arguments (null, undefined,
empty string) are modelled as the empty string.  A JavaScript stable sort
(ES2019 `Array.prototype.sort`) with comparator `ta - tb` is modelled with
`List.insertionSort`, which is stable and agrees with every stable sort on
a total preorder.  A thrown exception is modelled with `Except.error`; an
operation that cannot throw returns a plain result record.
-/

namespace UMarket

/-- A chat message row as it lives in the messages page state
(`messagesMap`).  Fields mirror the `chat_messages` columns plus the
page-local decorations `read_at` (from receipts), `sendError` (set on a
failed optimistic send) and `optimistic` (set on a provisional entry). -/
structure Message where
  id : String
  chat_id : String
  sender_id : String
  body : String
  created_at : Nat
  edited_at : Option Nat := none
  read_at : Option Nat := none
  sendError : Option String := none
  optimistic : Bool := false
deriving Repr, DecidableEq

/-- Ascending order on message creation timestamps: the comparator of
`sortMessages` in orders.js
(`new Date(a.created_at).getTime() - new Date(b.created_at).getTime()`). -/
def createdLe (a b : Message) : Prop := a.created_at ≤ b.created_at

instance : DecidableRel createdLe := fun a b => Nat.decLe a.created_at b.created_at

instance : IsTotal Message createdLe := ⟨fun a b => Nat.le_total a.created_at b.created_at⟩

instance : IsTrans Message createdLe := ⟨fun _ _ _ hab hbc => Nat.le_trans hab hbc⟩

/-- `sortMessages` from orders.js: stable sort of a message list by
creation timestamp ascending. -/
def sortMessages (l : List Message) : List Message := l.insertionSort createdLe

/-- The insert/update merge of the realtime subscription handler in
orders.js: if an entry with the incoming identifier already exists the
window is returned unchanged, otherwise the message is appended and the
window re-sorted (`existing.some(item => item.id === message.id) ? prev :
sortMessages([...existing, enriched])`). -/
def realtimeInsert (list : List Message) (m : Message) : List Message :=
  if list.any (fun item => item.id == m.id) then list
  else sortMessages (list ++ [m])

/-- The realtime handler decorates the event payload before merging:
`read_at` is the creation time for own messages and null otherwise. -/
def reconcileRealtimeInsert (viewerId : String) (list : List Message) (event : Message) :
    List Message :=
  let enriched :=
    { event with read_at := if event.sender_id == viewerId then some event.created_at else none }
  realtimeInsert list enriched

/-- The delete branch of the realtime subscription handler:
`list.filter(item => item.id !== message.id)`. -/
def realtimeDelete (list : List Message) (messageId : String) : List Message :=
  list.filter (fun item => item.id != messageId)

/-- A window obtained from the empty window by a sequence of realtime
insert merges. -/
def applyInserts (events : List Message) : List Message :=
  events.foldl realtimeInsert []

/-- The two-part window invariant of spec section 8: sorted by creation
timestamp ascending, and no two entries share an identifier. -/
def windowInv (l : List Message) : Prop :=
  l.Sorted createdLe ∧ (l.map Message.id).Nodup

theorem sortMessages_sorted (l : List Message) : (sortMessages l).Sorted createdLe :=
  List.sorted_insertionSort createdLe l

theorem sortMessages_perm (l : List Message) : List.Perm (sortMessages l) l :=
  List.perm_insertionSort createdLe l

theorem realtimeInsert_inv {l : List Message} (m : Message) (h : windowInv l) :
    windowInv (realtimeInsert l m) := by
  unfold realtimeInsert
  split
  · exact h
  · rename_i hnone
    refine ⟨sortMessages_sorted _, ?_⟩
    have hperm :
        List.Perm ((sortMessages (l ++ [m])).map Message.id) ((l ++ [m]).map Message.id) :=
      (sortMessages_perm (l ++ [m])).map Message.id
    refine hperm.nodup_iff.mpr ?_
    rw [List.map_append]
    refine List.Nodup.append h.2 (List.nodup_singleton m.id) ?_
    intro x hx hy
    simp only [List.map_cons, List.map_nil, List.mem_singleton] at hy
    subst hy
    apply hnone
    simp only [List.any_eq_true]
    rcases List.mem_map.mp hx with ⟨a, ha, hid⟩
    exact ⟨a, ha, by simp [hid]⟩

theorem foldl_realtimeInsert_inv (events : List Message) (init : List Message)
    (h : windowInv init) : windowInv (events.foldl realtimeInsert init) := by
  induction events generalizing init with
  | nil => exact h
  | cons e es ih => exact ih _ (realtimeInsert_inv e h)

theorem applyInserts_inv (events : List Message) : windowInv (applyInserts events) :=
  foldl_realtimeInsert_inv events [] ⟨List.sorted_nil, List.nodup_nil⟩

/-- Claim C1: for every sequence of upsert (realtime insert merge) calls
applied to an initially empty Message Store window, the resulting window
is sorted by message creation timestamp in ascending order and contains
no two entries with the same message identifier. -/
theorem upsert_window_sorted_and_deduped (events : List Message) :
    (applyInserts events).Sorted createdLe ∧ ((applyInserts events).map Message.id).Nodup :=
  applyInserts_inv events

/-! ### Optimistic send pipeline (orders.js, `handleSendMessage`) -/

/-- The confirmation step of `handleSendMessage` in orders.js, run when the
transport insert resolves.  Verbatim from the source: the saved record is
decorated with the local send timestamp as `read_at`; every entry whose
identifier equals the provisional identifier is replaced by the saved
record; then, if some entry carries the saved identifier (`hasSaved`,
checked on the already-replaced list), the replaced list is kept,
otherwise the provisional entry is filtered out and the saved record
appended; finally the window is re-sorted. -/
def confirmSend (existing : List Message) (optimisticId : String) (saved : Message)
    (timestamp : Nat) : List Message :=
  let savedMessage := { saved with read_at := some timestamp }
  let replaced := existing.map (fun msg => if msg.id == optimisticId then savedMessage else msg)
  let hasSaved := replaced.any (fun msg => msg.id == savedMessage.id)
  let nextList :=
    if hasSaved then replaced
    else (replaced.filter (fun msg => msg.id != optimisticId)) ++ [savedMessage]
  sortMessages nextList

/-- Number of window entries carrying a given identifier. -/
def countWithId (l : List Message) (i : String) : Nat :=
  (l.filter (fun m => m.id == i)).length

/-- The provisional entry synthesized by `handleSendMessage` for the C2
race scenario: viewer alice sends body hi at time 100. -/
def optimisticHi : Message :=
  { id := "optimistic-1", chat_id := "c42", sender_id := "alice", body := "hi",
    created_at := 100, read_at := some 100, optimistic := true }

/-- The remote echo of the same logical message, delivered by the realtime
channel with its durable identifier before the transport response. -/
def echoHi : Message :=
  { id := "m-100", chat_id := "c42", sender_id := "alice", body := "hi", created_at := 100 }

/-- The window after the optimistic append and the racing realtime insert
of the remote echo: both the provisional entry and the durable entry are
present. -/
def raceWindow : List Message := reconcileRealtimeInsert "alice" [optimisticHi] echoHi

/-- Claim C2 (code bug): when the remote echo of an optimistic send was
already inserted by the realtime handler, the confirmation step is
supposed to remove the provisional entry and keep the remote entry,
leaving exactly one entry for the logical message.  The code instead
replaces the provisional entry in place by the saved record — the
`hasSaved` dedupe guard is evaluated only after that replacement, so it is
always true and the dedupe branch never runs — leaving two window entries
with the durable identifier m-100. -/
theorem confirmSend_race_leaves_duplicate :
    countWithId (confirmSend raceWindow "optimistic-1" echoHi 100) "m-100" = 2 := by decide

/-- The failure step of `handleSendMessage` in orders.js, run when the
transport insert raises: the entry with the provisional identifier is
flagged with the transport error message (`{ ...msg, sendError:
error.message }`) and every other entry is untouched.  The second
component counts retry transport calls issued by the handler; the catch
block issues none. -/
def handleSendFailure (existing : List Message) (optimisticId : String) (errMsg : String) :
    List Message × Nat :=
  (existing.map
      (fun msg => if msg.id == optimisticId then { msg with sendError := some errMsg } else msg),
    0)

/-- A window entry is displayed as failed exactly when its `sendError`
decoration is set (orders.js renders the bubble error iff
`message.sendError` is truthy). -/
def failed (m : Message) : Bool := m.sendError.isSome

theorem filter_byId_map_update (l : List Message) (oid : String) (e : String) :
    (l.map (fun msg => if msg.id == oid then { msg with sendError := some e } else msg)).filter
        (fun m => m.id == oid) =
      (l.filter (fun m => m.id == oid)).map
        (fun msg => if msg.id == oid then { msg with sendError := some e } else msg) := by
  rw [List.filter_map]
  congr 1
  apply List.filter_congr
  intro a _
  by_cases h : a.id = oid
  · simp [Function.comp, h]
  · simp [Function.comp, h]

/-- Claim C8: a pending send whose transport call raises leaves exactly
one entry for that send in the window, flagged failed, with the submitted
body preserved verbatim, and issues no automatic retry.  The hypothesis
states that the window held exactly one entry with the provisional
identifier before the failure, as established by the optimistic append. -/
theorem failedSend_single_flagged_entry (existing : List Message) (oid : String)
    (m0 : Message) (e : String)
    (h : existing.filter (fun m => m.id == oid) = [m0]) :
    ((handleSendFailure existing oid e).1.filter (fun m => m.id == oid) =
        [{ m0 with sendError := some e }]) ∧
    failed { m0 with sendError := some e } = true ∧
    ({ m0 with sendError := some e }).body = m0.body ∧
    (handleSendFailure existing oid e).1.length = existing.length ∧
    (handleSendFailure existing oid e).2 = 0 := by
  have hm0 : (m0.id == oid) = true := by
    have : m0 ∈ existing.filter (fun m => m.id == oid) := by simp [h]
    exact (List.mem_filter.mp this).2
  refine ⟨?_, rfl, rfl, by simp [handleSendFailure], rfl⟩
  rw [show (handleSendFailure existing oid e).1 =
      existing.map
        (fun msg => if msg.id == oid then { msg with sendError := some e } else msg) from rfl]
  rw [filter_byId_map_update, h]
  have h0 : m0.id = oid := by simpa using hm0
  simp [h0]

/-- Witness for C8 at a concrete two-entry window. -/
theorem failedSend_single_flagged_entry_check :
    ((handleSendFailure [echoHi, optimisticHi] "optimistic-1" "boom").1.filter
        (fun m => m.id == "optimistic-1") =
      [{ optimisticHi with sendError := some "boom" }]) ∧
    failed { optimisticHi with sendError := some "boom" } = true ∧
    ({ optimisticHi with sendError := some "boom" }).body = optimisticHi.body ∧
    (handleSendFailure [echoHi, optimisticHi] "optimistic-1" "boom").1.length =
      ([echoHi, optimisticHi] : List Message).length ∧
    (handleSendFailure [echoHi, optimisticHi] "optimistic-1" "boom").2 = 0 :=
  failedSend_single_flagged_entry [echoHi, optimisticHi] "optimistic-1" optimisticHi "boom"
    (by decide)

/-! ### Unread predicate (orders.js, `markChatAsRead` and the sidebar) -/

/-- The unread predicate of orders.js: `markChatAsRead` collects
`msg.sender_id !== user.id && !msg.read_at`, and the conversation sidebar
flags `lastMessage.sender_id !== user.id && !chat.lastMessageReadAt`. -/
def isUnread (m : Message) (viewerId : String) : Bool :=
  m.sender_id != viewerId && m.read_at.isNone

/-- Claim C7: `isUnread` holds iff the sender differs from the viewer and
no read timestamp is recorded for the viewer; in particular it is false
whenever the sender equals the viewer. -/
theorem isUnread_characterization (m : Message) (v : String) :
    (isUnread m v = true ↔ (m.sender_id ≠ v ∧ m.read_at = none)) ∧
    (m.sender_id = v → isUnread m v = false) := by
  constructor
  · simp [isUnread, Option.isNone_iff_eq_none]
  · intro hv
    simp [isUnread, hv]

/-- Witness for C7: a message from the viewer themselves is never unread,
even with no read timestamp recorded. -/
theorem isUnread_characterization_check :
    isUnread { echoHi with read_at := none } "alice" = false :=
  (isUnread_characterization { echoHi with read_at := none } "alice").2 rfl

/-! ### Chat data-access layer (src/unnamed/part_004)

Each operation performs one backend call.  The backend response is
modelled by a `dbError : Option String` oracle (`some e` = the call
returned an error object with message `e`) together with the table the
query reads, and a thrown exception is an `Except.error`.  Result records
track whether a query was issued and what was logged, so that the
best-effort contracts are statable. -/

/-- A row of the `message_receipts` table. -/
structure ReceiptRow where
  message_id : String
  user_id : String
  read_at : Nat
deriving Repr, DecidableEq

/-- Result of `markMessagesRead`: `raised` is an error propagated to the
caller (always none), `logged` the console error lines, `queried` whether
the upsert was issued. -/
structure MarkReadResult where
  raised : Option String
  logged : List String
  queried : Bool
deriving Repr, DecidableEq

/-- `markMessagesRead(messageIds, userId)` from chatApi: filter falsy ids,
return early when nothing to mark or no user, otherwise upsert one receipt
row per id; a persistence error is logged and swallowed
(`console.error(...)` with no rethrow). -/
def markMessagesRead (messageIds : List String) (userId : String) (now : Nat)
    (persist : List ReceiptRow → Except String Unit) : MarkReadResult :=
  let ids := messageIds.filter (fun i => i ≠ "")
  if ids = [] ∨ userId = "" then ⟨none, [], false⟩
  else
    match persist (ids.map (fun mid => ⟨mid, userId, now⟩)) with
    | .error e => ⟨none, ["Failed to mark messages read: " ++ e], true⟩
    | .ok _ => ⟨none, [], true⟩

/-- Claim C3: `markMessagesRead` never raises to the caller, and when the
underlying persistence call fails it logs the error and still returns
normally. -/
theorem markMessagesRead_best_effort (messageIds : List String) (userId : String) (now : Nat)
    (persist : List ReceiptRow → Except String Unit) :
    (markMessagesRead messageIds userId now persist).raised = none ∧
    (∀ e,
      persist ((messageIds.filter (fun i => i ≠ "")).map (fun mid => ⟨mid, userId, now⟩)) =
        Except.error e →
      ¬(messageIds.filter (fun i => i ≠ "") = [] ∨ userId = "") →
      (markMessagesRead messageIds userId now persist).logged =
        ["Failed to mark messages read: " ++ e]) := by
  constructor
  · simp only [markMessagesRead]
    split
    · rfl
    · split <;> rfl
  · intro e he hcond
    simp only [markMessagesRead]
    rw [if_neg hcond, he]

/-- The always-failing persistence stub used by the C3 witness. -/
def failPersist : List ReceiptRow → Except String Unit := fun _ => Except.error "boom"

/-- Witness for C3: on a concrete failing upsert the call returns
normally and logs the failure. -/
theorem markMessagesRead_best_effort_check :
    (markMessagesRead ["m1"] "u" 7 failPersist).raised = none ∧
    (markMessagesRead ["m1"] "u" 7 failPersist).logged =
      ["Failed to mark messages read: boom"] :=
  ⟨(markMessagesRead_best_effort ["m1"] "u" 7 failPersist).1,
   (markMessagesRead_best_effort ["m1"] "u" 7 failPersist).2 "boom" rfl (by decide)⟩

/-- Outcome of `sendChatMessage`: the guard throw, the transport throw, or
the durable record returned by the insert. -/
inductive SendOutcome where
  | validationError (msg : String)
  | transportError (msg : String)
  | sent (record : Message)
deriving Repr, DecidableEq

/-- Result of `sendChatMessage`; `submitted` records whether the backend
insert was performed. -/
structure SendResult where
  outcome : SendOutcome
  submitted : Bool
deriving Repr, DecidableEq

/-- `sendChatMessage(chatId, body, senderId)` from chatApi: throw a local
validation error when any argument is falsy, otherwise insert the row and
either rethrow the backend error (with a fallback text when its message is
empty) or return the durable record. -/
def sendChatMessage (chatId body senderId : String)
    (transport : String → String → String → Except String Message) : SendResult :=
  if chatId = "" ∨ body = "" ∨ senderId = "" then
    ⟨.validationError "Missing chat message payload", false⟩
  else
    match transport chatId body senderId with
    | .error e => ⟨.transportError (if e = "" then "Failed to send message" else e), true⟩
    | .ok record => ⟨.sent record, true⟩

/-- A transport stub that persists the submitted row under id m-1. -/
def okTransport : String → String → String → Except String Message :=
  fun chatId body senderId =>
    Except.ok
      { id := "m-1", chat_id := chatId, sender_id := senderId, body := body, created_at := 0 }

/-- A 2001-character body, one over the compose surface bound of 2000. -/
def longBody : String := String.mk (List.replicate 2001 'a')

theorem longBody_length : longBody.length = 2001 := by
  show (List.replicate 2001 'a').length = 2001
  exact List.length_replicate 2001 'a'

theorem longBody_ne_empty : longBody ≠ "" := by
  intro h
  have h2 := congrArg String.length h
  rw [longBody_length] at h2
  exact absurd h2 (by decide)

/-- Counterexample to claim C4 as stated: a body consisting solely of
whitespace (hence empty after trimming) and a body exceeding the
2000-character bound are both submitted to the transport rather than
rejected before I/O — `sendChatMessage` only rejects falsy arguments and
enforces no trimming and no length bound. -/
theorem sendChatMessage_submits_untrimmed_unbounded :
    ("   ".toList.all Char.isWhitespace = true) ∧
    (sendChatMessage "c1" "   " "u1" okTransport).submitted = true ∧
    2000 < longBody.length ∧
    (sendChatMessage "c1" longBody "u1" okTransport).submitted = true := by
  refine ⟨by decide, by decide, ?_, ?_⟩
  · rw [longBody_length]; norm_num
  · have hcond : ¬("c1" = "" ∨ longBody = "" ∨ "u1" = "") := by
      rintro (h | h | h)
      · exact absurd h (by decide)
      · exact longBody_ne_empty h
      · exact absurd h (by decide)
    unfold sendChatMessage
    rw [if_neg hcond]
    rfl

/-- Claim C4 as amended: if the chat id, body, or sender id is missing
(falsy), the send operation rejects synchronously with a validation error
before any I/O; otherwise — including whitespace-only and over-long
bodies — it submits the message to the transport and returns the durable
record, or raises the transport error. -/
theorem sendChatMessage_spec (chatId body senderId : String)
    (transport : String → String → String → Except String Message) :
    (chatId = "" ∨ body = "" ∨ senderId = "" →
      sendChatMessage chatId body senderId transport =
        ⟨.validationError "Missing chat message payload", false⟩) ∧
    (chatId ≠ "" → body ≠ "" → senderId ≠ "" →
      (sendChatMessage chatId body senderId transport).submitted = true ∧
      (∀ r, transport chatId body senderId = Except.ok r →
        (sendChatMessage chatId body senderId transport).outcome = .sent r) ∧
      (∀ e, transport chatId body senderId = Except.error e →
        (sendChatMessage chatId body senderId transport).outcome =
          .transportError (if e = "" then "Failed to send message" else e))) := by
  have hmain : ∀ h : ¬(chatId = "" ∨ body = "" ∨ senderId = ""),
      sendChatMessage chatId body senderId transport =
        match transport chatId body senderId with
        | .error e => ⟨.transportError (if e = "" then "Failed to send message" else e), true⟩
        | .ok record => ⟨.sent record, true⟩ := by
    intro h
    unfold sendChatMessage
    rw [if_neg h]
  constructor
  · intro h
    unfold sendChatMessage
    rw [if_pos h]
  · intro h1 h2 h3
    have hcond : ¬(chatId = "" ∨ body = "" ∨ senderId = "") := by tauto
    rw [hmain hcond]
    refine ⟨?_, ?_, ?_⟩
    · cases transport chatId body senderId <;> rfl
    · intro r hr; rw [hr]
    · intro e he; rw [he]

/-- Witness for C4: a concrete valid send is submitted and returns the
durable record. -/
theorem sendChatMessage_spec_check :
    (sendChatMessage "c42" "hi" "alice" okTransport).outcome =
      SendOutcome.sent
        { id := "m-1", chat_id := "c42", sender_id := "alice", body := "hi", created_at := 0 } :=
  ((sendChatMessage_spec "c42" "hi" "alice" okTransport).2 (by decide) (by decide)
    (by decide)).2.1 _ rfl

/-- The optional `.lt(created_at, before)` clause of `fetchChatMessages`. -/
def beforeFilter (before : Option Nat) (l : List Message) : List Message :=
  match before with
  | some b => l.filter (fun m => m.created_at < b)
  | none => l

/-- `fetchChatMessages(chatId, { limit, before })` from chatApi: return
early on a falsy chat id, otherwise select the rows of the conversation
(optionally created strictly before `before`), ordered by creation
timestamp ascending, limited to `limit` rows; a backend error is rethrown
with a fallback text. -/
def fetchChatMessages (table : List Message) (dbError : Option String) (chatId : String)
    (limit : Nat) (before : Option Nat) : Except String (List Message) :=
  if chatId = "" then .ok []
  else
    match dbError with
    | some e => .error (if e = "" then "Failed to load messages" else e)
    | none =>
      .ok (((beforeFilter before (table.filter (fun m => m.chat_id == chatId))).insertionSort
        createdLe).take limit)

theorem mem_beforeFilter {before : Option Nat} {l : List Message} {m : Message}
    (h : m ∈ beforeFilter before l) : m ∈ l := by
  cases before with
  | some b => exact (List.mem_filter.mp h).1
  | none => exact h

/-- Claim C5: a successful bulk load returns messages of the requested
conversation, ordered oldest-first by creation timestamp, with at most
`limit` entries. -/
theorem fetchChatMessages_sorted_bounded (table : List Message) (dbError : Option String)
    (chatId : String) (limit : Nat) (before : Option Nat) (ms : List Message)
    (h : fetchChatMessages table dbError chatId limit before = Except.ok ms) :
    ms.Sorted createdLe ∧ ms.length ≤ limit ∧ ∀ m ∈ ms, m.chat_id = chatId := by
  unfold fetchChatMessages at h
  by_cases hc : chatId = ""
  · rw [if_pos hc] at h
    cases h
    exact ⟨List.sorted_nil, by simp, by simp⟩
  · rw [if_neg hc] at h
    cases hdb : dbError with
    | some e => rw [hdb] at h; cases h
    | none =>
      rw [hdb] at h
      cases h
      refine ⟨?_, List.length_take_le _ _, ?_⟩
      · exact List.Pairwise.sublist (List.take_sublist _ _)
          (List.sorted_insertionSort createdLe _)
      · intro m hm
        have hm2 := (List.take_sublist _ _).mem hm
        have hm3 := mem_beforeFilter ((List.mem_insertionSort createdLe).mp hm2)
        exact eq_of_beq (List.mem_filter.mp hm3).2

/-- Concrete table for the C5 witness: two rows of conversation c1 out of
creation order plus a row of another conversation. -/
def msgTable : List Message :=
  [ { id := "m2", chat_id := "c1", sender_id := "bob", body := "later", created_at := 9 },
    { id := "m3", chat_id := "c2", sender_id := "eve", body := "other", created_at := 1 },
    { id := "m1", chat_id := "c1", sender_id := "alice", body := "early", created_at := 3 } ]

/-- Witness for C5 at a concrete table and limit. -/
theorem fetchChatMessages_sorted_bounded_check :
    ((fetchChatMessages msgTable none "c1" 1 none).toOption.getD []).Sorted createdLe ∧
    ((fetchChatMessages msgTable none "c1" 1 none).toOption.getD []).length ≤ 1 ∧
    ∀ m ∈ (fetchChatMessages msgTable none "c1" 1 none).toOption.getD [], m.chat_id = "c1" :=
  fetchChatMessages_sorted_bounded msgTable none "c1" 1 none _ rfl

/-! ### Conversation listing (chatApi `fetchChats`) -/

/-- A row of the `chats` table as normalized by `normalizeChatRow`
(identifier, participants and the activity timestamps; the joined product,
profile and last-message payloads do not affect the ordering contract). -/
structure ChatRow where
  id : String
  buyer_id : String
  seller_id : String
  created_at : Nat
  updated_at : Nat
deriving Repr, DecidableEq

/-- Descending order on last-activity timestamps: the backend order
`.order(updated_at, ascending false)` of `fetchChats`. -/
def activityGe (a b : ChatRow) : Prop := b.updated_at ≤ a.updated_at

instance : DecidableRel activityGe := fun a b => Nat.decLe b.updated_at a.updated_at

instance : IsTotal ChatRow activityGe := ⟨fun a b => Nat.le_total b.updated_at a.updated_at⟩

instance : IsTrans ChatRow activityGe := ⟨fun _ _ _ hab hbc => Nat.le_trans hbc hab⟩

/-- `fetchChats(userId)` from chatApi: return early with the empty list on
a falsy user id (no query issued), otherwise select the conversations
where the user is buyer or seller, ordered by `updated_at` descending.
The second component counts queries issued.  The backend guarantees only
the `updated_at` order and leaves the order of tied rows unspecified; the
stable sort here fixes one of the permissible tie orders so the model is
executable, and only tie-order-independent facts (sortedness, membership,
the absence of an identifier tie-break in the code) are read off it. -/
def fetchChats (table : List ChatRow) (userId : String) : List ChatRow × Nat :=
  if userId = "" then ([], 0)
  else
    ((table.filter (fun c => c.buyer_id == userId || c.seller_id == userId)).insertionSort
      activityGe, 1)

/-- Claim C9: a falsy user id yields the empty list and no backend
query. -/
theorem fetchChats_missing_user_no_query (table : List ChatRow) :
    fetchChats table "" = ([], 0) := rfl

/-- The tie rule claimed by the spec, ascending-identifier reading: after
sorting, a pair in order is either strictly more recent or tied and in
identifier order. -/
def tieBrokenByIdAsc (l : List ChatRow) : Prop :=
  l.Pairwise (fun a b => b.updated_at < a.updated_at ∨
    (a.updated_at = b.updated_at ∧ a.id < b.id))

/-- The tie rule claimed by the spec, descending-identifier reading. -/
def tieBrokenByIdDesc (l : List ChatRow) : Prop :=
  l.Pairwise (fun a b => b.updated_at < a.updated_at ∨
    (a.updated_at = b.updated_at ∧ b.id < a.id))

instance (l : List ChatRow) : Decidable (tieBrokenByIdAsc l) := by
  unfold tieBrokenByIdAsc; infer_instance

instance (l : List ChatRow) : Decidable (tieBrokenByIdDesc l) := by
  unfold tieBrokenByIdDesc; infer_instance

/-- Three conversations of viewer u with one shared last-activity
timestamp, stored in an order that is neither ascending nor descending by
identifier. -/
def chatTieTable : List ChatRow :=
  [ { id := "b", buyer_id := "u", seller_id := "s1", created_at := 0, updated_at := 5 },
    { id := "a", buyer_id := "u", seller_id := "s2", created_at := 0, updated_at := 5 },
    { id := "c", buyer_id := "u", seller_id := "s3", created_at := 0, updated_at := 5 } ]

/-- Counterexample to claim C6 as stated: `fetchChats` orders only by
`updated_at` descending with no identifier tie-break, so three equally
recent conversations come back in table order b, a, c — ordered by
identifier under neither reading. -/
theorem fetchChats_no_identifier_tiebreak :
    (fetchChats chatTieTable "u").1.map ChatRow.id = ["b", "a", "c"] ∧
    ¬ tieBrokenByIdAsc (fetchChats chatTieTable "u").1 ∧
    ¬ tieBrokenByIdDesc (fetchChats chatTieTable "u").1 := by
  have hres : (fetchChats chatTieTable "u").1 =
      [ { id := "b", buyer_id := "u", seller_id := "s1", created_at := 0, updated_at := 5 },
        { id := "a", buyer_id := "u", seller_id := "s2", created_at := 0, updated_at := 5 },
        { id := "c", buyer_id := "u", seller_id := "s3", created_at := 0, updated_at := 5 } ] := by
    decide
  refine ⟨by decide, ?_, ?_⟩
  · intro h
    rw [hres, tieBrokenByIdAsc] at h
    have h1 := (List.pairwise_cons.mp h).1
      { id := "a", buyer_id := "u", seller_id := "s2", created_at := 0, updated_at := 5 }
      (by simp)
    rcases h1 with h1 | ⟨-, h1⟩
    · exact absurd h1 (by decide)
    · rw [String.lt_iff_toList_lt] at h1
      exact absurd h1 (by decide)
  · intro h
    rw [hres, tieBrokenByIdDesc] at h
    have h1 := (List.pairwise_cons.mp (List.pairwise_cons.mp h).2).1
      { id := "c", buyer_id := "u", seller_id := "s3", created_at := 0, updated_at := 5 }
      (by simp)
    rcases h1 with h1 | ⟨-, h1⟩
    · exact absurd h1 (by decide)
    · rw [String.lt_iff_toList_lt] at h1
      exact absurd h1 (by decide)

/-- Claim C6 as amended: the conversation listing is sorted by
last-activity timestamp descending; no identifier tie-break is applied,
so conversations with equal last-activity timestamps are in no particular
order (the backend query specifies no secondary sort key). -/
theorem fetchChats_sorted_desc (table : List ChatRow) (userId : String) :
    ((fetchChats table userId).1).Sorted activityGe := by
  unfold fetchChats
  by_cases h : userId = ""
  · rw [if_pos h]
    exact List.sorted_nil
  · rw [if_neg h]
    exact List.sorted_insertionSort activityGe _

/-! ### Receipt lookup (chatApi `fetchMessageReceipts`) -/

/-- Result of `fetchMessageReceipts`: the receipt map as an association
list in JavaScript object insertion order, plus the raised/queried/logged
bookkeeping of the other operations. -/
structure ReceiptsResult where
  map : List (String × Nat)
  raised : Option String
  queried : Bool
  logged : List String
deriving Repr, DecidableEq

/-- JavaScript object assignment `map[k] = v`: overwrite in place when the
key exists, append otherwise. -/
def objSet (m : List (String × Nat)) (k : String) (v : Nat) : List (String × Nat) :=
  if m.any (fun p => p.1 == k) then m.map (fun p => if p.1 == k then (k, v) else p)
  else m ++ [(k, v)]

/-- The result-map construction loop of `fetchMessageReceipts`:
`for (const row of data) map[row.message_id] = row.read_at`. -/
def buildReceiptMap (rows : List ReceiptRow) : List (String × Nat) :=
  rows.foldl (fun acc row => objSet acc row.message_id row.read_at) []

/-- `fetchMessageReceipts(messageIds, userId)` from chatApi: filter falsy
ids and return the empty map without a query when nothing remains or the
user id is falsy; issue the receipts query otherwise; log and return the
empty map on a backend error; on success build the map from the rows of
this user restricted to the requested ids. -/
def fetchMessageReceipts (table : List ReceiptRow) (dbError : Option String)
    (messageIds : List String) (userId : String) : ReceiptsResult :=
  if messageIds.filter (fun i => i ≠ "") = [] ∨ userId = "" then ⟨[], none, false, []⟩
  else
    match dbError with
    | some e => ⟨[], none, true, ["Failed to load message receipts: " ++ e]⟩
    | none =>
      ⟨buildReceiptMap
          (table.filter (fun r => r.user_id == userId &&
            (messageIds.filter (fun i => i ≠ "")).contains r.message_id)),
        none, true, []⟩

theorem objSet_keys (m : List (String × Nat)) (k : String) (v : Nat) :
    (objSet m k v).map Prod.fst =
      if m.any (fun p => p.1 == k) then m.map Prod.fst else m.map Prod.fst ++ [k] := by
  unfold objSet
  split
  · rw [List.map_map]
    apply List.map_congr_left
    intro p hp
    by_cases h : p.1 = k
    · simp [Function.comp, h]
    · simp [Function.comp, h]
  · simp

theorem objSet_keys_nodup (m : List (String × Nat)) (k : String) (v : Nat)
    (h : (m.map Prod.fst).Nodup) : ((objSet m k v).map Prod.fst).Nodup := by
  rw [objSet_keys]
  split
  · exact h
  · rename_i hany
    refine List.Nodup.append h (List.nodup_singleton k) ?_
    intro x hx hk
    simp only [List.mem_singleton] at hk
    subst hk
    apply hany
    simp only [List.any_eq_true]
    rcases List.mem_map.mp hx with ⟨p, hp, hpx⟩
    exact ⟨p, hp, by simp [hpx]⟩

theorem objSet_key_mem (m : List (String × Nat)) (k : String) (v : Nat) (x : String)
    (hx : x ∈ (objSet m k v).map Prod.fst) : x ∈ m.map Prod.fst ∨ x = k := by
  rw [objSet_keys] at hx
  split at hx
  · exact Or.inl hx
  · rcases List.mem_append.mp hx with h | h
    · exact Or.inl h
    · exact Or.inr (List.mem_singleton.mp h)

theorem foldl_objSet_keys (rows : List ReceiptRow) (acc : List (String × Nat))
    (h : (acc.map Prod.fst).Nodup) :
    ((rows.foldl (fun a row => objSet a row.message_id row.read_at) acc).map Prod.fst).Nodup ∧
    ∀ x ∈ (rows.foldl (fun a row => objSet a row.message_id row.read_at) acc).map Prod.fst,
      x ∈ acc.map Prod.fst ∨ x ∈ rows.map ReceiptRow.message_id := by
  induction rows generalizing acc with
  | nil => exact ⟨h, fun x hx => Or.inl hx⟩
  | cons r rows ih =>
    obtain ⟨h1, h2⟩ := ih (objSet acc r.message_id r.read_at) (objSet_keys_nodup _ _ _ h)
    refine ⟨h1, ?_⟩
    intro x hx
    rcases h2 x hx with hacc | hrows
    · rcases objSet_key_mem acc r.message_id r.read_at x hacc with h3 | h3
      · exact Or.inl h3
      · exact Or.inr (by simp [h3])
    · exact Or.inr (by simp [hrows])

theorem buildReceiptMap_keys (rows : List ReceiptRow) :
    ((buildReceiptMap rows).map Prod.fst).Nodup ∧
    ∀ x ∈ (buildReceiptMap rows).map Prod.fst, x ∈ rows.map ReceiptRow.message_id := by
  obtain ⟨h1, h2⟩ := foldl_objSet_keys rows [] List.nodup_nil
  refine ⟨h1, fun x hx => ?_⟩
  rcases h2 x hx with h | h
  · simp at h
  · exact h

/-- Claim C10: `fetchMessageReceipts` never raises; with no usable ids or
no user it returns the empty map without querying; on a backend error it
logs and returns the empty map; and on success the returned map binds at
most one read timestamp per requested message identifier. -/
theorem fetchMessageReceipts_contract (table : List ReceiptRow) (dbError : Option String)
    (messageIds : List String) (userId : String) :
    (fetchMessageReceipts table dbError messageIds userId).raised = none ∧
    (messageIds.filter (fun i => i ≠ "") = [] ∨ userId = "" →
      fetchMessageReceipts table dbError messageIds userId = ⟨[], none, false, []⟩) ∧
    (∀ e, dbError = some e → ¬(messageIds.filter (fun i => i ≠ "") = [] ∨ userId = "") →
      (fetchMessageReceipts table dbError messageIds userId).map = [] ∧
      (fetchMessageReceipts table dbError messageIds userId).logged =
        ["Failed to load message receipts: " ++ e]) ∧
    ((fetchMessageReceipts table dbError messageIds userId).map.map Prod.fst).Nodup ∧
    (∀ x ∈ (fetchMessageReceipts table dbError messageIds userId).map.map Prod.fst,
      x ∈ messageIds.filter (fun i => i ≠ "")) := by
  refine ⟨?_, ?_, ?_, ?_, ?_⟩
  · unfold fetchMessageReceipts
    split
    · rfl
    · split <;> rfl
  · intro h
    unfold fetchMessageReceipts
    rw [if_pos h]
  · intro e he hcond
    unfold fetchMessageReceipts
    rw [if_neg hcond, he]
    exact ⟨rfl, rfl⟩
  · unfold fetchMessageReceipts
    split
    · exact List.nodup_nil
    · split
      · exact List.nodup_nil
      · exact (buildReceiptMap_keys _).1
  · intro x hx
    unfold fetchMessageReceipts at hx
    split at hx
    · simp at hx
    · split at hx
      · simp at hx
      · have h2 := (buildReceiptMap_keys _).2 x hx
        rcases List.mem_map.mp h2 with ⟨r, hr, hrx⟩
        have hr2 := (List.mem_filter.mp hr).2
        rw [Bool.and_eq_true] at hr2
        subst hrx
        exact List.mem_of_elem_eq_true hr2.2

/-- Concrete receipts table for the C10 witness: two rows for the same
message id (the later one overwrites) and a row of another user. -/
def receiptTable : List ReceiptRow :=
  [ { message_id := "m1", user_id := "u", read_at := 4 },
    { message_id := "m1", user_id := "u", read_at := 6 },
    { message_id := "m2", user_id := "w", read_at := 5 } ]

/-- Witness for C10: a concrete backend failure is logged and yields the
empty map. -/
theorem fetchMessageReceipts_contract_check :
    (fetchMessageReceipts receiptTable (some "boom") ["m1", ""] "u").map = [] ∧
    (fetchMessageReceipts receiptTable (some "boom") ["m1", ""] "u").logged =
      ["Failed to load message receipts: boom"] :=
  (fetchMessageReceipts_contract receiptTable (some "boom") ["m1", ""] "u").2.2.1 "boom" rfl
    (by decide)

end UMarket
